import Mathlib

/-!
Verification development for the `simple-ldap` client library, centred on the
Server-Side-Sort (SSS) control codec (`src/sort/control.rs`), the SSS search
adapter (`src/sort/adapter.rs`), and the stream lifecycle manager
(`src/lib.rs`: `StreamDropWrapper::cleanup` and `to_native_stream`).

Bytes are modelled as `Nat` values (the Rust code works on `u8` slices, so all
real inputs are below 256). Rust panics (`panic!`, `.expect`) are modelled as
the `Except.error` outcome carrying the panic message, kept in a channel
separate from ordinary `LdapError` results.
-/

namespace SimpleLdap

/-- Tag classes of the ASN.1 BER encoding, mirroring `lber`'s `TagClass`. -/
inductive TagClass where
  | Universal
  | Application
  | Context
  | Private
deriving DecidableEq, Repr

/-- Modelled from the spec: the parsed tag tree produced by the external
`lber`/`ldap3::asn1` collaborator ("ASN.1-style tag-length-value"). A tag is
either primitive (raw content bytes) or constructed (a list of sub-tags);
it carries a tag class and a tag id. -/
inductive StructureTag where
  | P (cls : TagClass) (tagId : Nat) (bytes : List Nat)
  | C (cls : TagClass) (tagId : Nat) (tags : List StructureTag)

/-- Tag class of a structure tag. -/
def StructureTag.cls : StructureTag → TagClass
  | .P c _ _ => c
  | .C c _ _ => c

/-- Tag id of a structure tag. -/
def StructureTag.tagId : StructureTag → Nat
  | .P _ i _ => i
  | .C _ i _ => i

/-- Mirrors `StructureTag::match_class`: keep the tag if its class matches. -/
def StructureTag.matchClass (t : StructureTag) (c : TagClass) : Option StructureTag :=
  if t.cls = c then some t else none

/-- Mirrors `StructureTag::match_id`: keep the tag if its id matches. -/
def StructureTag.matchId (t : StructureTag) (i : Nat) : Option StructureTag :=
  if t.tagId = i then some t else none

/-- Mirrors `StructureTag::expect_primitive`: content bytes of a primitive tag. -/
def StructureTag.expectPrimitive : StructureTag → Option (List Nat)
  | .P _ _ bs => some bs
  | .C _ _ _ => none

/-- Mirrors `StructureTag::expect_constructed`: sub-tags of a constructed tag. -/
def StructureTag.expectConstructed : StructureTag → Option (List StructureTag)
  | .P _ _ _ => none
  | .C _ _ ts => some ts

/-- Numeric encoding of a BER tag class (top two bits of the identifier octet). -/
def classOfNum (n : Nat) : TagClass :=
  match n with
  | 0 => .Universal
  | 1 => .Application
  | 2 => .Context
  | _ => .Private

/-- Modelled from the spec: BER definite-length parsing for the external
`lber` collaborator. Short form below 128; long form `0x80 + n` followed by
`n` big-endian length bytes. Indefinite lengths are rejected. -/
def parseLen : List Nat → Option (Nat × List Nat)
  | [] => none
  | l :: rest =>
    if l < 128 then some (l, rest)
    else
      let n := l - 128
      if n = 0 then none
      else if rest.length < n then none
      else some ((rest.take n).foldl (fun acc b => acc * 256 + b % 256) 0, rest.drop n)

mutual

/-- Modelled from the spec: parse one BER tag-length-value from a byte list
(the external `lber` `parse_tag` collaborator), fuelled for termination.
Only low tag numbers (below 31) are modelled; the SSS controls use ids 0, 1,
4, 10 and 16 exclusively. Returns the tag and the unconsumed remainder. -/
def parseOne : Nat → List Nat → Option (StructureTag × List Nat)
  | 0, _ => none
  | _ + 1, [] => none
  | fuel + 1, b :: rest =>
    let cls := classOfNum (b / 64 % 4)
    let constructed := b / 32 % 2 = 1
    let idNum := b % 32
    if idNum ≥ 31 then none
    else
      match parseLen rest with
      | none => none
      | some (len, rest2) =>
        if rest2.length < len then none
        else
          let content := rest2.take len
          let remainder := rest2.drop len
          if constructed then
            match parseMany fuel content with
            | none => none
            | some tags => some (.C cls idNum tags, remainder)
          else some (.P cls idNum content, remainder)

/-- Modelled from the spec: parse a maximal run of BER tags out of a byte
list (used for the content of a constructed tag). -/
def parseMany : Nat → List Nat → Option (List StructureTag)
  | _, [] => some []
  | 0, _ :: _ => none
  | fuel + 1, b :: rest =>
    match parseOne fuel (b :: rest) with
    | none => none
    | some (t, rest2) =>
      match parseMany fuel rest2 with
      | none => none
      | some ts => some (t :: ts)

end

/-- Modelled from the spec: the external `lber` `parse_tag` entry point; the
unconsumed remainder is discarded by the caller in `control.rs`, so it is
dropped here as well. -/
def parse_tag (bytes : List Nat) : Option StructureTag :=
  (parseOne (2 * bytes.length + 4) bytes).map Prod.fst

/-- Modelled from the spec: the external `lber` `parse_uint` collaborator,
folding content bytes big-endian into an unsigned 64-bit value. -/
def parse_uint (bytes : List Nat) : Nat :=
  bytes.foldl (fun acc b => (acc * 256 + b % 256) % (2 ^ 64)) 0

/-- Modelled from the spec: the standard library's `String::from_utf8`
(external collaborator), restricted to the ASCII fragment exercised by this
specification; any byte at or above 128 is treated as invalid content. -/
def utf8Decode (bytes : List Nat) : Option String :=
  if bytes.all (· < 128) then some (String.mk (bytes.map Char.ofNat)) else none

/-- Byte content of an ASCII attribute-name or matching-rule string, the
model of `String`'s conversion into `Vec<u8>` on the encoding side. -/
def strBytes (s : String) : List Nat :=
  s.data.map Char.toNat

/-- Potential results to SSS, from `control.rs` (`enum SortResult`). -/
inductive SortResult where
  | Success
  | OperationsError
  | TimeLimitExceeded
  | StrongAuthRequired
  | AdminLimitExceeded
  | NoSuchAttribute
  | InappropriateMatching
  | InsufficientAccessRights
  | Busy
  | UnwillingToPerform
  | Other
deriving DecidableEq, Repr

/-- Mirrors `SortResult::try_from` (the `TryFrom<u64>` derived from the
`repr(u64)` discriminants in `control.rs`). -/
def SortResult.tryFrom (n : Nat) : Option SortResult :=
  match n with
  | 0 => some .Success
  | 1 => some .OperationsError
  | 3 => some .TimeLimitExceeded
  | 8 => some .StrongAuthRequired
  | 11 => some .AdminLimitExceeded
  | 16 => some .NoSuchAttribute
  | 18 => some .InappropriateMatching
  | 50 => some .InsufficientAccessRights
  | 51 => some .Busy
  | 53 => some .UnwillingToPerform
  | 80 => some .Other
  | _ => none

/-- Debug rendering of a `SortResult`, the model of Rust's derived `Debug`
formatting used in the adapter's panic message. -/
def SortResult.debugStr : SortResult → String
  | .Success => "Success"
  | .OperationsError => "OperationsError"
  | .TimeLimitExceeded => "TimeLimitExceeded"
  | .StrongAuthRequired => "StrongAuthRequired"
  | .AdminLimitExceeded => "AdminLimitExceeded"
  | .NoSuchAttribute => "NoSuchAttribute"
  | .InappropriateMatching => "InappropriateMatching"
  | .InsufficientAccessRights => "InsufficientAccessRights"
  | .Busy => "Busy"
  | .UnwillingToPerform => "UnwillingToPerform"
  | .Other => "Other"

/-- Response control for SSS, from `control.rs` (`struct ServerSideSortResponse`). -/
structure ServerSideSortResponse where
  sort_result : SortResult
  attribute_type : Option String
deriving DecidableEq, Repr

/-- Tag id of `Types::Enumerated` in `lber`. -/
def enumeratedTypeId : Nat := 10

/-- Implicit context tag id of the optional attribute name in the SSS
response control (`ATTRIBUTE_TYPE_TAG` in `control.rs`). -/
def ATTRIBUTE_TYPE_TAG : Nat := 0

/-- Decoder of the SSS response control payload, translated from
`ServerSideSortResponse::parse` in `control.rs`. Every Rust panic
(`panic!` or `.expect`) is modelled as `Except.error` carrying the panic
message; there is no non-panicking error channel in the source, whose
`ControlParser::parse` signature returns a bare `Self`. -/
def ServerSideSortResponse.parse (val : List Nat) : Except String ServerSideSortResponse :=
  match parse_tag val with
  | none => .error "failed to parse server side sort response control components"
  | some tag =>
    match tag.expectConstructed with
    | none => .error "server side sort results components"
    | some sequence_components =>
      match sequence_components.head? with
      | none => .error "server side sort element 1"
      | some first =>
        match ((first.matchClass .Universal).bind
            (fun t => t.matchId enumeratedTypeId)).bind
            (fun t => t.expectPrimitive) with
        | none => .error "sortResult"
        | some raw_sort_result =>
          match SortResult.tryFrom (parse_uint raw_sort_result) with
          | none => .error "should have been a valid sort result code"
          | some sort_result =>
            if sort_result = SortResult.Success then
              .ok { sort_result := sort_result, attribute_type := none }
            else
              match (((sequence_components.drop 1).head?.bind
                  (fun t => t.matchClass .Context)).bind
                  (fun t => t.matchId ATTRIBUTE_TYPE_TAG)).bind
                  (fun t => t.expectPrimitive) with
              | none => .ok { sort_result := sort_result, attribute_type := none }
              | some bytes =>
                match utf8Decode bytes with
                | none => .error "should be an AttributeType Description"
                | some s => .ok { sort_result := sort_result, attribute_type := some s }

/-! Encoding side: the `ldap3::asn1` `Tag` values built by `control.rs`. -/

/-- Value-level ASN.1 tags as built by `control.rs`, mirroring the
`ldap3::asn1` `Tag` enum variants that the source uses (`OctetString`,
`Boolean`, `Sequence`), each with its tag id, tag class and inner value. -/
inductive Tag where
  | OctetString (tagId : Nat) (cls : TagClass) (inner : List Nat)
  | Boolean (tagId : Nat) (cls : TagClass) (inner : Bool)
  | Sequence (tagId : Nat) (cls : TagClass) (inner : List Tag)

/-- Modelled from the spec: `Tag::into_structure` of the external `lber`
collaborator, lowering a value-level tag to the tag-length-value tree; a BER
boolean is one content byte, 255 for true and 0 for false. -/
def Tag.intoStructure : Tag → StructureTag
  | .OctetString i c bs => .P c i bs
  | .Boolean i c b => .P c i [if b then 255 else 0]
  | .Sequence i c ts => .C c i (ts.attach.map (fun t => t.1.intoStructure))
decreasing_by
  have := List.sizeOf_lt_of_mem t.2
  simp_wf
  omega

/-- Numeric encoding of a BER tag class. -/
def TagClass.toNum : TagClass → Nat
  | .Universal => 0
  | .Application => 1
  | .Context => 2
  | .Private => 3

/-- Big-endian base-256 digits of a natural number (empty for zero). -/
def beDigits (n : Nat) : List Nat :=
  if _h : n = 0 then []
  else beDigits (n / 256) ++ [n % 256]
decreasing_by exact Nat.div_lt_self (Nat.pos_of_ne_zero _h) (by omega)

/-- Modelled from the spec: BER definite-length octets; short form below
128, long form otherwise. -/
def lenBytes (n : Nat) : List Nat :=
  if n < 128 then [n] else (128 + (beDigits n).length) :: beDigits n

/-- Identifier octet of a BER tag (low tag numbers only, as used by the SSS
controls). -/
def headerByte (c : TagClass) (constructed : Bool) (i : Nat) : Nat :=
  c.toNum * 64 + (if constructed then 32 else 0) + i

/-- Modelled from the spec: the external `lber` `write::encode_into`
serializer, emitting tag-length-value octets for a structure tree. -/
def encodeStructure : StructureTag → List Nat
  | .P c i bs => headerByte c false i :: (lenBytes bs.length ++ bs)
  | .C c i ts =>
    let content := (ts.attach.map (fun t => encodeStructure t.1)).flatten
    headerByte c true i :: (lenBytes content.length ++ content)
decreasing_by
  have := List.sizeOf_lt_of_mem t.2
  simp_wf
  omega

/-! The SSS request control, from `control.rs` and `sort.rs`. -/

/-- Request control OID of Server Side Sort, from `sort.rs`. -/
def SERVER_SIDE_SORT_REQUEST_OID : String := "1.2.840.113556.1.4.473"

/-- Response control OID of Server Side Sort, from `sort.rs`. -/
def SERVER_SIDE_SORT_RESPONSE_OID : String := "1.2.840.113556.1.4.474"

/-- A sort directive, from `adapter.rs` (`struct SortBy`). -/
structure SortBy where
  «attribute» : String
  reverse : Bool
deriving DecidableEq, Repr

/-- An individual sort key, from `control.rs` (`struct SortKey`). -/
structure SortKey where
  attribute_type : String
  ordering_rule : Option String
  reverse_order : Bool
deriving DecidableEq, Repr

/-- Mirrors `impl From<SortBy> for SortKey` in `control.rs`: the ordering
rule is never populated from a `SortBy`. -/
def SortKey.fromSortBy (value : SortBy) : SortKey :=
  { attribute_type := value.«attribute», ordering_rule := none, reverse_order := value.reverse }

/-- Implicit context tag of the optional ordering rule (`ORDERING_RULE_TAG`). -/
def ORDERING_RULE_TAG : Nat := 0

/-- Implicit context tag of the reverse flag (`REVERSE_ORDER_TAG`). -/
def REVERSE_ORDER_TAG : Nat := 1

/-- Mirrors `impl From<SortKey> for Tag` in `control.rs`: a per-key sequence
of the mandatory attribute-name octet string (universal, default id 4), the
optional context-tagged ordering rule, and the mandatory context-tagged
reverse boolean. -/
def sortKeyTag (value : SortKey) : Tag :=
  Tag.Sequence 16 .Universal
    ([Tag.OctetString 4 .Universal (strBytes value.attribute_type)]
      ++ (value.ordering_rule.toList.map
            (fun rule => Tag.OctetString ORDERING_RULE_TAG .Context (strBytes rule)))
      ++ [Tag.Boolean REVERSE_ORDER_TAG .Context value.reverse_order])

/-- Request control for SSS, from `control.rs` (`struct ServerSideSortRequest`). -/
structure ServerSideSortRequest where
  sort_key_list : List SortKey
deriving DecidableEq, Repr

/-- Wire-level raw control, mirroring `ldap3::controls::RawControl`. -/
structure RawControl where
  ctype : String
  crit : Bool
  val : Option (List Nat)
deriving DecidableEq, Repr

/-- Mirrors `impl From<ServerSideSortRequest> for RawControl` in
`control.rs`: the sort keys are wrapped in an outer default (universal,
id 16) sequence, lowered and serialized; the criticality flag is `false`
at this level. -/
def requestRawControl (value : ServerSideSortRequest) : RawControl :=
  let tagged := (Tag.Sequence 16 .Universal (value.sort_key_list.map sortKeyTag)).intoStructure
  { ctype := SERVER_SIDE_SORT_REQUEST_OID
    crit := false
    val := some (encodeStructure tagged) }

/-- Modelled from the spec: `ldap3`'s `MakeCritical`/`CriticalControl`
wrapper (external collaborator), applied by `adapter.rs` via `.critical()`;
converting the wrapped control to a `RawControl` yields the inner control's
conversion with the criticality flag set. -/
def criticalRawControl (value : ServerSideSortRequest) : RawControl :=
  { requestRawControl value with crit := true }

/-! The SSS adapter, from `adapter.rs`. -/

/-- Search adapter for sorting the results serverside, from `adapter.rs`. -/
structure ServerSideSort where
  sorts : List SortBy
deriving DecidableEq, Repr

/-- Error payload of `ServerSideSort::new`, from `adapter.rs`
(`struct DuplicateSortAttributes`). -/
structure DuplicateSortAttributes where
  attributes : List String
deriving DecidableEq, Repr

/-- Mirrors `itertools`' `duplicates()` on an attribute list: emit each
element the second time it is seen, once only, in order of second
occurrence. -/
def duplicatesAux (seen emitted : List String) : List String → List String
  | [] => []
  | a :: rest =>
    if a ∈ seen then
      if a ∈ emitted then duplicatesAux seen emitted rest
      else a :: duplicatesAux seen (a :: emitted) rest
    else duplicatesAux (a :: seen) emitted rest

/-- Elements occurring more than once, each reported once. -/
def duplicates (l : List String) : List String :=
  duplicatesAux [] [] l

/-- Mirrors `ServerSideSort::new` in `adapter.rs`: reject duplicate sort
attributes at construction, otherwise keep the list as given. -/
def ServerSideSort.new (sorts : List SortBy) : Except DuplicateSortAttributes ServerSideSort :=
  let dups := duplicates (sorts.map (·.«attribute»))
  if dups.isEmpty then Except.ok { sorts := sorts }
  else Except.error { attributes := dups }

/-- Minimal model of `ldap3::LdapError`: the variants this code produces or
propagates. `AdapterInit` carries the adapter's conflict message;
`LdapResultErr` carries a result code; `OtherErr` stands for any other
transport error flowing through unchanged. -/
inductive LdapError where
  | AdapterInit (msg : String)
  | LdapResultErr (rc : Nat)
  | OtherErr (msg : String)
deriving DecidableEq, Repr

/-- Debug rendering of an `LdapError`, the model of Rust's `Debug`
formatting used when wrapping stream errors into `Error::Query`. -/
def LdapError.debugStr : LdapError → String
  | .AdapterInit m => "AdapterInit(" ++ m ++ ")"
  | .LdapResultErr rc => "LdapResult(rc=" ++ toString rc ++ ")"
  | .OtherErr m => m

/-- Mirrors the `is_some_and` conflict check at the top of
`ServerSideSort::start`: is a control with the SSS request OID already in
the outgoing op set? -/
def sortControlAlreadyDefined (controls : Option (List RawControl)) : Bool :=
  match controls with
  | none => false
  | some vec => vec.any (fun control => control.ctype = SERVER_SIDE_SORT_REQUEST_OID)

/-- Observable outcome of `ServerSideSort::start`: the returned result, the
outgoing control list afterwards, and whether the inner `stream.start` was
reached. -/
structure StartOutcome where
  result : Except LdapError Unit
  controls : Option (List RawControl)
  innerStarted : Bool
deriving Repr

/-- Mirrors `ServerSideSort::start` in `adapter.rs`. `controls` is the
stream handle's outgoing control list, `innerResult` the outcome of the
chained `stream.start` call. On conflict the adapter returns an
`AdapterInit` error before touching the control list or dispatching; else
it pushes its critical control (`get_or_insert_default().push(..)`) and
continues the chain. -/
def ServerSideSort.start (self : ServerSideSort) (controls : Option (List RawControl))
    (innerResult : Except LdapError Unit) : StartOutcome :=
  if sortControlAlreadyDefined controls then
    { result := Except.error (.AdapterInit "found Server Side Sort control in op set already")
      controls := controls
      innerStarted := false }
  else
    let sorts := self.sorts
    let new_control := criticalRawControl { sort_key_list := sorts.map SortKey.fromSortBy }
    { result := innerResult
      controls := some (controls.getD [] ++ [new_control])
      innerStarted := true }

/-- Response-side control as the adapter sees it: `ldap3::controls::Control`
is a pair whose first component (the parsed control type) is ignored by
`get_response_control`, so only the raw control is modelled. -/
structure Control where
  raw : RawControl
deriving DecidableEq, Repr

/-- Mirrors `get_response_control` in `adapter.rs`: find the first control
carrying the SSS response OID and run the codec on its payload. Modelled
from the spec: `RawControl::parse` (external collaborator) hands the
control's binary payload to the codec and a missing payload is a decode
failure. Decode panics propagate in the error channel. -/
def get_response_control (controls : List Control) :
    Except String (Option ServerSideSortResponse) :=
  match (controls.map (·.raw)).find? (fun raw => raw.ctype = SERVER_SIDE_SORT_RESPONSE_OID) with
  | none => Except.ok none
  | some raw =>
    match raw.val with
    | none => Except.error "value"
    | some bytes => (ServerSideSortResponse.parse bytes).map some

/-- The `stream.res.as_ref().and_then(..)` step of `ServerSideSort::next`:
look up and decode the SSS control of the most recent interim result, if
there is one. -/
def sssOf (res : Option (List Control)) : Except String (Option ServerSideSortResponse) :=
  match res with
  | none => Except.ok none
  | some ctrls => get_response_control ctrls

/-- Mirrors `ServerSideSort::next` in `adapter.rs` (the unused `&mut self`
receiver is dropped). `inner` is the chained `stream.next()` outcome and
`res` the control list of the most recent interim result. The outer
`Except String` is the panic channel: a non-Success sort result (or a
malformed control payload) panics rather than yielding an `LdapError`. -/
def ServerSideSort.next {E : Type} (inner : Except LdapError (Option E))
    (res : Option (List Control)) : Except String (Except LdapError (Option E)) :=
  match inner with
  | .error e => Except.ok (Except.error e)
  | .ok none => Except.ok (Except.ok none)
  | .ok (some result_entry) =>
    match sssOf res with
    | .error msg => Except.error msg
    | .ok (some r) =>
      if r.sort_result = SortResult.Success then Except.ok (Except.ok (some result_entry))
      else
        Except.error ("Server side sort result was " ++ r.sort_result.debugStr ++
          ". This should never be the case in this branch as the control was set to critical and so should have caused an error earlier.")
    | .ok none => Except.ok (Except.ok (some result_entry))

/-- Final result of a search as `finish` sees it: result code and controls
(`ldap3::LdapResult`, restricted to the fields this code reads). -/
structure LdapResultM where
  rc : Nat
  ctrls : List Control
deriving DecidableEq, Repr

/-- Mirrors `ServerSideSort::finish` in `adapter.rs`: the chained
`stream.finish()` result is inspected for the SSS control purely to log it,
then forwarded unchanged; only a decode panic can alter the outcome. -/
def ServerSideSort.finish (result : LdapResultM) : Except String LdapResultM :=
  match get_response_control result.ctrls with
  | .error msg => Except.error msg
  | .ok _ => Except.ok result

/-! The stream lifecycle manager, from `lib.rs`. -/

/-- Stream states of `ldap3::StreamState`, as matched by
`StreamDropWrapper::cleanup`. -/
inductive StreamState where
  | Fresh
  | Active
  | Done
  | Closed
  | Error
deriving DecidableEq, Repr

/-- Environment of one `cleanup` run: the result code `finish` returns, the
stream state observed after `finish`, the handle's `last_id`, and whether
the abandon call would succeed. -/
structure CleanupEnv where
  finishRc : Nat
  stateAfterFinish : StreamState
  lastId : Nat
  abandonOk : Bool
deriving DecidableEq, Repr

/-- Observable trace of one `cleanup` run: whether `finish` was called,
which message id (if any) was abandoned, and the log lines emitted. -/
structure CleanupTrace where
  finishCalled : Bool
  abandonIssued : Option Nat
  logged : List String
deriving DecidableEq, Repr

/-- Mirrors `StreamDropWrapper::cleanup` in `lib.rs`: always call `finish`
first (result code 0 and the user-cancellation code 88 are fine, anything
else is logged); then match the stream state: `Done`/`Closed` need no
action, `Error` is logged and deliberately left alone, and `Fresh`/`Active`
trigger an abandon of `last_id`, whose own failure is logged, never
propagated. The function returns unit. -/
def cleanup (env : CleanupEnv) : Unit × CleanupTrace :=
  let finishLog : List String :=
    if env.finishRc = 0 then []
    else if env.finishRc = 88 then []
    else ["The stream finished with an error"]
  match env.stateAfterFinish with
  | .Done | .Closed =>
    ((), { finishCalled := true, abandonIssued := none, logged := finishLog })
  | .Error =>
    ((), { finishCalled := true, abandonIssued := none
           logged := finishLog ++
             ["Stream is in Error state. Not trying to cancel it as it could do more harm than good."] })
  | .Fresh | .Active =>
    let msgid := env.lastId
    let abandonLog : List String :=
      if env.abandonOk then [] else ["Error abandoning search result"]
    ((), { finishCalled := true, abandonIssued := some msgid
           logged := finishLog ++ ["Stream is still open. Issuing cancellation to the server."]
             ++ abandonLog })

/-! Native stream production, from `lib.rs` (`to_native_stream`). -/

/-- Modelled from the spec: `ldap3::SearchEntry::construct` (external
collaborator), the thin projection of a wire-level entry; entries are
opaque here. -/
structure SearchEntry where
  raw : Nat
deriving DecidableEq, Repr

/-- Modelled from the spec: constructing a `SearchEntry` from a wire-level
result entry is an external projection; here it wraps the opaque payload. -/
def SearchEntry.construct (result_entry : Nat) : SearchEntry :=
  { raw := result_entry }

/-- Caller-facing record wrapper, from `lib.rs` (`struct Record`). -/
structure Record where
  search_entry : SearchEntry
deriving DecidableEq, Repr

/-- The crate's error type, restricted to the variant `to_native_stream`
produces (`Error::Query` in `lib.rs`). -/
inductive Error where
  | Query (msg : String) (source : LdapError)
deriving DecidableEq, Repr

/-- Mirrors `to_native_stream` in `lib.rs`: the `try_unfold` loop over the
underlying stream, fed here with the list of successive `next()` outcomes
the transport would produce. `Ok(Some(..))` yields a record and continues,
`Ok(None)` ends the sequence, `Err` yields one `Error::Query` item and
ends the sequence. -/
def to_native_stream : List (Except LdapError (Option Nat)) → List (Except Error Record)
  | [] => []
  | step :: rest =>
    match step with
    | .ok (some result_entry) =>
      Except.ok { search_entry := SearchEntry.construct result_entry } :: to_native_stream rest
    | .ok none => []
    | .error ldap_error =>
      [Except.error (.Query ("Error getting next record: " ++ ldap_error.debugStr) ldap_error)]

/-! Helper lemmas. -/

/-- A list with no repeats, none of whose elements were seen before,
produces no duplicates. -/
lemma duplicatesAux_eq_nil (seen emitted : List String) (l : List String)
    (hs : ∀ x ∈ l, x ∉ seen) (hn : l.Nodup) :
    duplicatesAux seen emitted l = [] := by
  induction l generalizing seen emitted with
  | nil => rfl
  | cons a rest ih =>
    obtain ⟨ha, hrest⟩ := List.nodup_cons.mp hn
    have hanot : a ∉ seen := hs a (List.mem_cons_self a rest)
    simp only [duplicatesAux, if_neg hanot]
    exact ih (a :: seen) emitted
      (fun x hx => by
        rcases List.mem_cons.mpr (Or.inr hx) with _
        intro hmem
        rcases List.mem_cons.mp hmem with hxa | hxs
        · exact ha (hxa ▸ hx)
        · exact hs x (List.mem_cons_of_mem a hx) hxs)
      hrest

/-- If the duplicate scan (with nothing emitted yet) comes back empty, the
list has no repeats and avoids everything already seen. -/
lemma nodup_of_duplicatesAux_eq_nil (seen : List String) (l : List String)
    (h : duplicatesAux seen [] l = []) :
    (∀ x ∈ l, x ∉ seen) ∧ l.Nodup := by
  induction l generalizing seen with
  | nil => exact ⟨by simp, List.nodup_nil⟩
  | cons a rest ih =>
    by_cases hseen : a ∈ seen
    · exfalso
      simp only [duplicatesAux, if_pos hseen] at h
      have : a ∉ ([] : List String) := by simp
      rw [if_neg this] at h
      exact List.cons_ne_nil _ _ h
    · simp only [duplicatesAux, if_neg hseen] at h
      obtain ⟨hall, hnd⟩ := ih (a :: seen) h
      refine ⟨?_, List.nodup_cons.mpr ⟨?_, hnd⟩⟩
      · intro x hx
        rcases List.mem_cons.mp hx with hxa | hxr
        · exact hxa ▸ hseen
        · intro hxs
          exact hall x hxr (List.mem_cons_of_mem a hxs)
      · intro harest
        exact hall a harest (List.mem_cons_self a seen)

/-- The duplicate scan of `adapter.rs` is empty exactly on repeat-free lists. -/
lemma duplicates_eq_nil_iff (l : List String) : duplicates l = [] ↔ l.Nodup := by
  constructor
  · exact fun h => (nodup_of_duplicatesAux_eq_nil [] l h).2
  · exact fun h => duplicatesAux_eq_nil [] [] l (by simp) h

/-! Claim theorems. -/

/-- C6: construction of the sort adapter fails with a
`DuplicateSortAttributes` error exactly when two entries of the `SortBy`
list share an attribute name (and it is pure, so no network I/O happens);
in particular the list `["cn", "cn"]` is rejected, naming `cn`, and a
repeat-free list constructs successfully with the list kept as given,
never deduplicated. -/
theorem duplicate_sort_attributes_rejected :
    (∀ sorts : List SortBy,
      ((∃ e, ServerSideSort.new sorts = Except.error e) ↔
        ¬ (sorts.map (·.«attribute»)).Nodup) ∧
      ((sorts.map (·.«attribute»)).Nodup →
        ServerSideSort.new sorts = Except.ok ⟨sorts⟩)) ∧
    ServerSideSort.new [⟨"cn", false⟩, ⟨"cn", true⟩] = Except.error ⟨["cn"]⟩ := by
  constructor
  · intro sorts
    constructor
    · constructor
      · rintro ⟨e, he⟩ hnd
        have hnil := (duplicates_eq_nil_iff _).mpr hnd
        simp [ServerSideSort.new, hnil] at he
      · intro hnot
        have hne : duplicates (sorts.map (·.«attribute»)) ≠ [] :=
          fun h => hnot ((duplicates_eq_nil_iff _).mp h)
        refine ⟨⟨duplicates (sorts.map (·.«attribute»))⟩, ?_⟩
        rcases h : duplicates (sorts.map (·.«attribute»)) with _ | ⟨d, ds⟩
        · exact absurd h hne
        · simp [ServerSideSort.new, h]
    · intro hnd
      have hnil := (duplicates_eq_nil_iff _).mpr hnd
      simp [ServerSideSort.new, hnil]
  · rfl

/-- C6 witness: a repeat-free sort list (`uid`, `cn`) satisfies the
no-duplicates hypothesis and constructs successfully. -/
theorem duplicate_sort_attributes_rejected_witness :
    (([⟨"uid", false⟩, ⟨"cn", true⟩] : List SortBy).map (·.«attribute»)).Nodup ∧
    ServerSideSort.new [⟨"uid", false⟩, ⟨"cn", true⟩] =
      Except.ok ⟨[⟨"uid", false⟩, ⟨"cn", true⟩]⟩ :=
  ⟨by decide, (duplicate_sort_attributes_rejected.1 _).2 (by decide)⟩

/-- Lowering a value-level sequence maps the lowering over its elements. -/
lemma intoStructure_sequence (i : Nat) (c : TagClass) (ts : List Tag) :
    (Tag.Sequence i c ts).intoStructure = .C c i (ts.map Tag.intoStructure) := by
  simp [Tag.intoStructure, List.attach_map_coe]

/-- C3: whenever the sort adapter's `start` attaches its request control
(no conflicting control pre-exists), the control appended to the outgoing
list carries the SSS request OID `1.2.840.113556.1.4.473` and has its
criticality flag set to true. -/
theorem sort_control_marked_critical :
    ∀ (self : ServerSideSort) (controls : Option (List RawControl))
      (innerResult : Except LdapError Unit),
      sortControlAlreadyDefined controls = false →
      ∃ c : RawControl,
        (self.start controls innerResult).controls = some (controls.getD [] ++ [c]) ∧
        c.crit = true ∧ c.ctype = SERVER_SIDE_SORT_REQUEST_OID := by
  intro self controls innerResult h
  refine ⟨criticalRawControl { sort_key_list := self.sorts.map SortKey.fromSortBy },
    ?_, rfl, rfl⟩
  simp [ServerSideSort.start, h]

/-- C3 witness: starting a fresh search (no pre-existing controls) with a
one-key sort adapter appends a critical control with the request OID. -/
theorem sort_control_marked_critical_witness :
    sortControlAlreadyDefined none = false ∧
    ∃ c : RawControl,
      ((ServerSideSort.mk [⟨"cn", false⟩]).start none (Except.ok ())).controls =
        some ([] ++ [c]) ∧ c.crit = true ∧ c.ctype = SERVER_SIDE_SORT_REQUEST_OID :=
  ⟨rfl, sort_control_marked_critical ⟨[⟨"cn", false⟩]⟩ none (Except.ok ()) rfl⟩

/-- C7: if a control with the SSS request OID is already present on the
request, `start` returns the `AdapterInit` conflict error, leaves the
control list untouched and never reaches the inner stream's `start`;
otherwise it forwards the chained result, the inner `start` is reached, and
the resulting control list holds exactly one control with the SSS request
OID. -/
theorem sss_control_conflict_rejected :
    ∀ (self : ServerSideSort) (controls : Option (List RawControl))
      (innerResult : Except LdapError Unit),
      (sortControlAlreadyDefined controls = true →
        (self.start controls innerResult).result =
          Except.error (.AdapterInit "found Server Side Sort control in op set already") ∧
        (self.start controls innerResult).controls = controls ∧
        (self.start controls innerResult).innerStarted = false) ∧
      (sortControlAlreadyDefined controls = false →
        (self.start controls innerResult).innerStarted = true ∧
        (self.start controls innerResult).result = innerResult ∧
        (((self.start controls innerResult).controls.getD []).filter
          (fun c => c.ctype = SERVER_SIDE_SORT_REQUEST_OID)).length = 1) := by
  intro self controls innerResult
  constructor
  · intro h
    refine ⟨?_, ?_, ?_⟩ <;> simp [ServerSideSort.start, h]
  · intro h
    refine ⟨by simp [ServerSideSort.start, h], by simp [ServerSideSort.start, h], ?_⟩
    have hnone : ∀ c ∈ controls.getD [], ¬ (c.ctype = SERVER_SIDE_SORT_REQUEST_OID) := by
      cases controls with
      | none => simp
      | some vec =>
        intro c hc
        have h2 : vec.any
            (fun control => decide (control.ctype = SERVER_SIDE_SORT_REQUEST_OID)) = false := by
          simpa [sortControlAlreadyDefined] using h
        have := List.any_eq_false.mp h2 c (by simpa using hc)
        simpa using this
    have hfil : (controls.getD []).filter
        (fun c => c.ctype = SERVER_SIDE_SORT_REQUEST_OID) = [] := by
      rw [List.filter_eq_nil_iff]
      intro c hc
      simpa using hnone c hc
    simp [ServerSideSort.start, h, List.filter_append, hfil, criticalRawControl,
      requestRawControl]

/-- C7 witness: a pre-attached raw control with the SSS request OID makes
`start` fail without dispatching; a clean request attaches exactly one sort
control. -/
theorem sss_control_conflict_rejected_witness :
    sortControlAlreadyDefined (some [⟨"1.2.840.113556.1.4.473", false, none⟩]) = true ∧
    ((ServerSideSort.mk [⟨"cn", false⟩]).start
        (some [⟨"1.2.840.113556.1.4.473", false, none⟩]) (Except.ok ())).innerStarted = false :=
  ⟨by decide,
    ((sss_control_conflict_rejected ⟨[⟨"cn", false⟩]⟩
      (some [⟨"1.2.840.113556.1.4.473", false, none⟩]) (Except.ok ())).1 (by decide)).2.2⟩

/-- C5: the request control's value is the tag-length-value serialization of
an outer universal SEQUENCE of per-key structures, and each per-key
structure is a universal SEQUENCE holding, in order, the mandatory
universal OCTET STRING with the attribute name, a context-tag [0] OCTET
STRING with the ordering rule present exactly when one was supplied, and
the mandatory context-tag [1] BOOLEAN with the reverse flag. -/
theorem sort_request_encoding_structure :
    ∀ req : ServerSideSortRequest,
      (requestRawControl req).val =
        some (encodeStructure
          (.C .Universal 16 (req.sort_key_list.map (fun k => (sortKeyTag k).intoStructure)))) ∧
      ∀ k ∈ req.sort_key_list,
        (sortKeyTag k).intoStructure =
          .C .Universal 16
            ([.P .Universal 4 (strBytes k.attribute_type)]
              ++ (k.ordering_rule.toList.map
                    (fun rule => .P .Context ORDERING_RULE_TAG (strBytes rule)))
              ++ [.P .Context REVERSE_ORDER_TAG [if k.reverse_order then 255 else 0]]) := by
  intro req
  constructor
  · simp only [requestRawControl, intoStructure_sequence, List.map_map]
    rfl
  · intro k _
    cases h : k.ordering_rule <;>
      simp [sortKeyTag, intoStructure_sequence, Tag.intoStructure, h]

/-- C5 witness: a concrete key with an ordering rule supplied lowers to the
three-element per-key sequence with the context-tagged rule present. -/
theorem sort_request_encoding_structure_witness :
    (⟨"cn", some "caseIgnoreOrderingMatch", true⟩ : SortKey) ∈
      ([⟨"cn", some "caseIgnoreOrderingMatch", true⟩] : List SortKey) ∧
    (sortKeyTag ⟨"cn", some "caseIgnoreOrderingMatch", true⟩).intoStructure =
      .C .Universal 16
        ([.P .Universal 4 (strBytes "cn")]
          ++ [.P .Context ORDERING_RULE_TAG (strBytes "caseIgnoreOrderingMatch")]
          ++ [.P .Context REVERSE_ORDER_TAG [255]]) :=
  ⟨List.mem_singleton.mpr rfl,
    (sort_request_encoding_structure ⟨[⟨"cn", some "caseIgnoreOrderingMatch", true⟩]⟩).2
      ⟨"cn", some "caseIgnoreOrderingMatch", true⟩ (List.mem_singleton.mpr rfl)⟩

/-- C2 counterexample: with the stream in the `Error` state after `finish`,
the state is neither `Done` nor `Closed`, yet no abandon request is issued —
refuting "abandon is issued if and only if the state is still not
Done/Closed". -/
theorem cleanup_abandon_iff_counterexample :
    (cleanup ⟨0, StreamState.Error, 7, true⟩).2.abandonIssued = none ∧
    (⟨0, StreamState.Error, 7, true⟩ : CleanupEnv).stateAfterFinish ≠ StreamState.Done ∧
    (⟨0, StreamState.Error, 7, true⟩ : CleanupEnv).stateAfterFinish ≠ StreamState.Closed :=
  ⟨rfl, by decide, by decide⟩

/-- C2 amended: during cleanup, after calling finish on the search stream,
an explicit abandon request for the last outstanding operation identifier is
issued if and only if the stream state is still `Fresh` or `Active` (in the
`Error` state no abandon is attempted, it is only logged), and any failure
of that abandon call is logged but never propagated to the caller (cleanup
returns unit). -/
theorem cleanup_abandon_iff_fresh_or_active :
    ∀ env : CleanupEnv,
      (cleanup env).2.finishCalled = true ∧
      ((cleanup env).2.abandonIssued.isSome ↔
        (env.stateAfterFinish = .Fresh ∨ env.stateAfterFinish = .Active)) ∧
      ((env.stateAfterFinish = .Fresh ∨ env.stateAfterFinish = .Active) →
        (cleanup env).2.abandonIssued = some env.lastId) ∧
      (cleanup env).1 = () ∧
      ((env.stateAfterFinish = .Fresh ∨ env.stateAfterFinish = .Active) →
        env.abandonOk = false →
        "Error abandoning search result" ∈ (cleanup env).2.logged) := by
  intro env
  obtain ⟨rc, st, lid, aok⟩ := env
  cases st <;> cases aok <;> simp [cleanup]

/-- C2 witness: an `Active` stream whose abandon call fails gets the abandon
issued for the handle's last id and the failure logged. -/
theorem cleanup_abandon_iff_fresh_or_active_witness :
    ((⟨5, StreamState.Active, 42, false⟩ : CleanupEnv).stateAfterFinish = .Fresh ∨
      (⟨5, StreamState.Active, 42, false⟩ : CleanupEnv).stateAfterFinish = .Active) ∧
    (⟨5, StreamState.Active, 42, false⟩ : CleanupEnv).abandonOk = false ∧
    "Error abandoning search result" ∈ (cleanup ⟨5, StreamState.Active, 42, false⟩).2.logged ∧
    (cleanup ⟨5, StreamState.Active, 42, false⟩).2.abandonIssued = some 42 :=
  ⟨Or.inr rfl, rfl,
    (cleanup_abandon_iff_fresh_or_active ⟨5, .Active, 42, false⟩).2.2.2.2 (Or.inr rfl) rfl,
    (cleanup_abandon_iff_fresh_or_active ⟨5, .Active, 42, false⟩).2.2.1 (Or.inr rfl)⟩

/-- C1 counterexample: decoding the empty payload reaches the decoder's
`panic!` branch ("failed to parse server side sort response control
components"), so decoding a malformed Server-Side-Sort response control
payload does panic rather than returning a typed `MalformedControl`
error — no such non-panicking error channel exists in the decoder, whose
`ControlParser::parse` signature returns a bare `Self`. -/
theorem sss_response_decode_panics_counterexample :
    ServerSideSortResponse.parse [] =
      Except.error "failed to parse server side sort response control components" := rfl

/-- C1 amended: decoding a Server-Side-Sort response control payload either
yields a response value or panics with one of the decoder's fixed panic
messages; malformed input (truncated sequence, wrong tag class on the
result element, non-UTF8 string content) and an enumerated integer not in
the `SortResult` table (here 2) all panic, while a legitimate `SortResult`
failure code (here `Busy` = 51) is returned as an ordinary response value,
so panics remain distinguishable from legitimate failure codes. -/
theorem sss_response_decode_panic_vs_failure_code :
    (∀ bytes : List Nat,
      (ServerSideSortResponse.parse bytes).isOk = true ∨
      ∃ msg, ServerSideSortResponse.parse bytes = Except.error msg ∧
        msg ∈ ["failed to parse server side sort response control components",
               "server side sort results components",
               "server side sort element 1",
               "sortResult",
               "should have been a valid sort result code",
               "should be an AttributeType Description"]) ∧
    ServerSideSortResponse.parse [0x30, 0x10, 0x0a, 0x01] =
      Except.error "failed to parse server side sort response control components" ∧
    ServerSideSortResponse.parse [0x30, 0x03, 0x8a, 0x01, 0x00] =
      Except.error "sortResult" ∧
    ServerSideSortResponse.parse [0x30, 0x06, 0x0a, 0x01, 0x10, 0x80, 0x01, 0xff] =
      Except.error "should be an AttributeType Description" ∧
    ServerSideSortResponse.parse [0x30, 0x03, 0x0a, 0x01, 0x02] =
      Except.error "should have been a valid sort result code" ∧
    ServerSideSortResponse.parse [0x30, 0x03, 0x0a, 0x01, 0x33] =
      Except.ok ⟨SortResult.Busy, none⟩ := by
  refine ⟨?_, rfl, rfl, rfl, rfl, rfl⟩
  intro bytes
  unfold ServerSideSortResponse.parse
  repeat' split
  all_goals first
    | exact Or.inl rfl
    | exact Or.inr ⟨_, rfl, by simp⟩

/-- C4: a successfully decoded response whose code is `Success` always has
`attribute_type = none`, even when an attribute field is physically present
(third conjunct: code 0 with an attached `cn` field decodes to none);
for a non-Success code at most one optional context-tag [0] string is read,
absence being valid (the `Busy` vector); and the enumerated code 16 with
attached attribute name `unknownAttr` decodes to `NoSuchAttribute` with
`attribute_type = some "unknownAttr"`. -/
theorem sss_response_success_ignores_attribute :
    (∀ (bytes : List Nat) (r : ServerSideSortResponse),
      ServerSideSortResponse.parse bytes = Except.ok r →
      r.sort_result = SortResult.Success → r.attribute_type = none) ∧
    ServerSideSortResponse.parse
      [0x30, 0x10, 0x0a, 0x01, 0x10, 0x80, 0x0b,
       0x75, 0x6e, 0x6b, 0x6e, 0x6f, 0x77, 0x6e, 0x41, 0x74, 0x74, 0x72] =
      Except.ok ⟨SortResult.NoSuchAttribute, some "unknownAttr"⟩ ∧
    ServerSideSortResponse.parse [0x30, 0x03, 0x0a, 0x01, 0x33] =
      Except.ok ⟨SortResult.Busy, none⟩ ∧
    ServerSideSortResponse.parse [0x30, 0x07, 0x0a, 0x01, 0x00, 0x80, 0x02, 0x63, 0x6e] =
      Except.ok ⟨SortResult.Success, none⟩ := by
  refine ⟨?_, by rfl, rfl, rfl⟩
  intro bytes r h hs
  unfold ServerSideSortResponse.parse at h
  repeat' split at h
  all_goals first
    | (injection h; done)
    | (injection h with h; subst h)
  all_goals simp_all

/-- C4 witness: the success-with-attribute vector satisfies both hypotheses
of the universal conjunct, and its decoded attribute is none. -/
theorem sss_response_success_ignores_attribute_witness :
    ServerSideSortResponse.parse [0x30, 0x07, 0x0a, 0x01, 0x00, 0x80, 0x02, 0x63, 0x6e] =
      Except.ok ⟨SortResult.Success, none⟩ ∧
    (⟨SortResult.Success, none⟩ : ServerSideSortResponse).sort_result = SortResult.Success ∧
    (⟨SortResult.Success, none⟩ : ServerSideSortResponse).attribute_type = none :=
  ⟨rfl, rfl,
    sss_response_success_ignores_attribute.1
      [0x30, 0x07, 0x0a, 0x01, 0x00, 0x80, 0x02, 0x63, 0x6e]
      ⟨SortResult.Success, none⟩ rfl rfl⟩

/-- C8: when the most recent interim result carries a Success sort control,
or no sort control at all, `next` forwards the entry unchanged; when it
carries a non-Success code, `next` panics with the adapter's
internal-invariant message (the `Except.error` channel) and in particular
never produces any ordinary result value, so the condition is not
observable as a recoverable `LdapError`. -/
theorem sort_adapter_next_forwarding :
    ∀ (E : Type) (entry : E) (res : Option (List Control)),
      (sssOf res = Except.ok none →
        ServerSideSort.next (Except.ok (some entry)) res =
          Except.ok (Except.ok (some entry))) ∧
      (∀ r, sssOf res = Except.ok (some r) → r.sort_result = SortResult.Success →
        ServerSideSort.next (Except.ok (some entry)) res =
          Except.ok (Except.ok (some entry))) ∧
      (∀ r, sssOf res = Except.ok (some r) → r.sort_result ≠ SortResult.Success →
        ServerSideSort.next (Except.ok (some entry)) res =
          Except.error ("Server side sort result was " ++ r.sort_result.debugStr ++
            ". This should never be the case in this branch as the control was set to critical and so should have caused an error earlier.") ∧
        ∀ le : Except LdapError (Option E),
          ServerSideSort.next (Except.ok (some entry)) res ≠ Except.ok le) := by
  intro E entry res
  refine ⟨?_, ?_, ?_⟩
  · intro h
    simp [ServerSideSort.next, h]
  · intro r h hs
    simp [ServerSideSort.next, h, hs]
  · intro r h hs
    refine ⟨by simp [ServerSideSort.next, h, hs], ?_⟩
    intro le
    simp [ServerSideSort.next, h, hs]

/-- C8 witness: a decoded Success control on the interim result lets a
concrete entry through unchanged. -/
theorem sort_adapter_next_forwarding_witness :
    sssOf (some [⟨⟨"1.2.840.113556.1.4.474", false, some [0x30, 0x03, 0x0a, 0x01, 0x00]⟩⟩]) =
      Except.ok (some ⟨SortResult.Success, none⟩) ∧
    (⟨SortResult.Success, none⟩ : ServerSideSortResponse).sort_result = SortResult.Success ∧
    ServerSideSort.next (Except.ok (some (5 : Nat)))
      (some [⟨⟨"1.2.840.113556.1.4.474", false, some [0x30, 0x03, 0x0a, 0x01, 0x00]⟩⟩]) =
      Except.ok (Except.ok (some 5)) :=
  ⟨rfl, rfl,
    (sort_adapter_next_forwarding Nat 5
      (some [⟨⟨"1.2.840.113556.1.4.474", false, some [0x30, 0x03, 0x0a, 0x01, 0x00]⟩⟩])).2.1
      ⟨SortResult.Success, none⟩ rfl rfl⟩

/-- C10: when the underlying stream signals end-of-results, the sort
adapter's `next` returns end-of-results without touching the response
controls at all (the equation holds for every control set, including one
carrying a non-Success code); and `finish` forwards the final result
unchanged whenever its control list decodes (in particular for a
non-Success sort result), so a non-Success code on the final result is
never surfaced as an error through `next` or `finish`. -/
theorem sort_adapter_end_and_finish_ignore_sort_result :
    (∀ (E : Type) (res : Option (List Control)),
      ServerSideSort.next (E := E) (Except.ok none) res = Except.ok (Except.ok none)) ∧
    (∀ (result : LdapResultM) (r : Option ServerSideSortResponse),
      get_response_control result.ctrls = Except.ok r →
      ServerSideSort.finish result = Except.ok result) := by
  constructor
  · intro E res
    rfl
  · intro result r h
    simp [ServerSideSort.finish, h]

/-- C10 witness: a final result carrying a non-Success (`Busy`) sort
control decodes, and `finish` still forwards the result unchanged. -/
theorem sort_adapter_end_and_finish_ignore_sort_result_witness :
    get_response_control [⟨⟨"1.2.840.113556.1.4.474", false, some [0x30, 0x03, 0x0a, 0x01, 0x33]⟩⟩] =
      Except.ok (some ⟨SortResult.Busy, none⟩) ∧
    ServerSideSort.finish
        ⟨0, [⟨⟨"1.2.840.113556.1.4.474", false, some [0x30, 0x03, 0x0a, 0x01, 0x33]⟩⟩]⟩ =
      Except.ok ⟨0, [⟨⟨"1.2.840.113556.1.4.474", false, some [0x30, 0x03, 0x0a, 0x01, 0x33]⟩⟩]⟩ :=
  ⟨rfl,
    sort_adapter_end_and_finish_ignore_sort_result.2
      ⟨0, [⟨⟨"1.2.840.113556.1.4.474", false, some [0x30, 0x03, 0x0a, 0x01, 0x33]⟩⟩]⟩
      (some ⟨SortResult.Busy, none⟩) rfl⟩

/-- C9: for every run of the underlying stream, the caller-visible sequence
produced by `to_native_stream` consists of record items with at most one
error item, which is always the last item (first conjunct: every output is
a list of successful records optionally terminated by one error item); and
the error item is really produced by the erroring pull, not by skipping it:
after any prefix of entry results, a clean end-of-results yields exactly
the forwarded entries in order with no error item (second and third
conjuncts), while a per-entry error yields those entries followed by
exactly the one `Error::Query` item wrapping that very `LdapError`, as the
final item, whatever the underlying transport would have produced
afterwards (fourth conjunct). -/
theorem stream_error_item_is_terminal :
    (∀ steps : List (Except LdapError (Option Nat)),
      (∃ recs : List Record, to_native_stream steps = recs.map Except.ok) ∨
      (∃ recs : List Record, ∃ err : Error,
        to_native_stream steps = recs.map Except.ok ++ [Except.error err])) ∧
    (∀ (entries : List Nat) (rest : List (Except LdapError (Option Nat)))
        (err : LdapError),
      to_native_stream (entries.map (fun e => Except.ok (some e))) =
        entries.map (fun e => Except.ok ⟨SearchEntry.construct e⟩) ∧
      to_native_stream
          (entries.map (fun e => Except.ok (some e)) ++ Except.ok none :: rest) =
        entries.map (fun e => Except.ok ⟨SearchEntry.construct e⟩) ∧
      to_native_stream
          (entries.map (fun e => Except.ok (some e)) ++ Except.error err :: rest) =
        entries.map (fun e => Except.ok ⟨SearchEntry.construct e⟩) ++
          [Except.error
            (.Query ("Error getting next record: " ++ err.debugStr) err)]) := by
  constructor
  · intro steps
    induction steps with
    | nil => exact Or.inl ⟨[], rfl⟩
    | cons step rest ih =>
      cases step with
      | ok o =>
        cases o with
        | none => exact Or.inl ⟨[], rfl⟩
        | some e =>
          rcases ih with ⟨recs, hr⟩ | ⟨recs, err, hr⟩
          · exact Or.inl ⟨⟨SearchEntry.construct e⟩ :: recs, by simp [to_native_stream, hr]⟩
          · exact Or.inr ⟨⟨SearchEntry.construct e⟩ :: recs, err,
              by simp [to_native_stream, hr]⟩
      | error e =>
        exact Or.inr ⟨[], _, rfl⟩
  · intro entries
    induction entries with
    | nil => exact fun rest err => ⟨rfl, rfl, rfl⟩
    | cons e es ih =>
      intro rest err
      obtain ⟨ih1, ih2, ih3⟩ := ih rest err
      refine ⟨?_, ?_, ?_⟩ <;> simp [to_native_stream, ih1, ih2, ih3]

end SimpleLdap
